import Mathlib

/-!
Verification development for the Commonly channel adapter of openclaw.

The definitions below are a shallow embedding of the TypeScript sources:

* `src/extensions/commonly/src/channel.ts` — the channel plugin: the pure
  body formatters (`buildSummaryMessage`, `formatThreadBody`,
  `formatEnsembleTurnBody`) and the `ws.onEvent` handler, embedded as a
  function `handleEvent` from an environment and an event to the list of
  observable actions the handler performs, in order.
* `src/src/channels/commonly/websocket.ts` — `CommonlyWebSocket`:
  `subscribe` / `unsubscribe` / the `connect`-event replay, embedded as
  state transformers on the tracked subscription set that also return the
  wire messages emitted.
* `src/src/channels/commonly/client.ts` — `CommonlyClient`: header
  selection and per-method response handling, embedded as functions from a
  config and an HTTP response to an `ApiCall` record (whether a fetch was
  issued, which Authorization header it carried, whether a warning was
  logged, and the outcome).
* `CommonlyChannel.transformEvent` from `src/src/channels/commonly/index.ts`.

JavaScript-specific conventions: optional values are `Option`; the
JS falsy test on a string is the test against `""`; `x?.trim() || d`
becomes `jsOr (x.map jsTrim) d`; `x ?? d` becomes `x.getD d`.
-/

/-- JS `a || b` on an optional string: `b` when `a` is absent or empty. -/
def jsOr (a : Option String) (b : String) : String :=
  match a with
  | some s => if s = "" then b else s
  | none => b

/-- JS `String.prototype.trim()`: strip whitespace from both ends
(defined over the character list so that it evaluates by `decide`). -/
def jsTrim (s : String) : String :=
  String.mk (((s.data.dropWhile Char.isWhitespace).reverse.dropWhile Char.isWhitespace).reverse)

/-- JS `[...new Set(l)]`: deduplicate keeping first occurrences, in order. -/
def jsSetDedup (l : List String) : List String :=
  l.foldl (fun acc x => if x ∈ acc then acc else acc ++ [x]) []

/-- JS `Array.prototype.slice(-5)`: the last five elements (all when fewer). -/
def lastFive {α : Type} (l : List α) : List α :=
  l.drop (l.length - 5)

/-! ## Event data model (`src/src/channels/commonly/events.ts`) -/

/-- `payload.thread` of a Commonly event. -/
structure ThreadInfo where
  postId : String
  postContent : Option String := none
  commentId : Option String := none
  commentText : Option String := none
  deriving Repr, DecidableEq

/-- `payload.summary` of a `summary.request` event. -/
structure SummaryInfo where
  content : Option String := none
  title : Option String := none
  channelName : Option String := none
  channelUrl : Option String := none
  messageCount : Option Nat := none
  timeRange : Option String := none
  summaryType : Option String := none
  deriving Repr, DecidableEq

/-- One entry of `payload.context.recentHistory` (the `timestamp` field is
not consulted by any embedded code and is omitted). -/
structure HistoryEntry where
  agentType : String
  content : String
  deriving Repr, DecidableEq

/-- One entry of `payload.context.keyPoints`. -/
structure KeyPoint where
  content : String
  deriving Repr, DecidableEq

/-- One entry of `payload.participants`. -/
structure Participant where
  agentType : String
  instanceId : Option String := none
  displayName : Option String := none
  role : Option String := none
  deriving Repr, DecidableEq

/-- `payload.context` of an `ensemble.turn` event. -/
structure EnsembleContext where
  topic : String
  turnNumber : Int
  roundNumber : Int
  isStarter : Bool
  recentHistory : List HistoryEntry := []
  keyPoints : List KeyPoint := []
  deriving Repr, DecidableEq

/-- `CommonlyEventPayload`. -/
structure EventPayload where
  messageId : Option String := none
  content : Option String := none
  userId : Option String := none
  username : Option String := none
  mentions : Option (List String) := none
  source : Option String := none
  thread : Option ThreadInfo := none
  summary : Option SummaryInfo := none
  ensembleId : Option String := none
  participants : Option (List Participant) := none
  context : Option EnsembleContext := none
  deriving Repr, DecidableEq

/-- `CommonlyEvent`. `_id` and `payload` are typed as required in the
TypeScript declaration but the runtime code guards both (`if (event._id)`,
`event.payload?.`), so they are embedded as optional. The `createdAt` /
`agentName` / `instanceId` fields are not consulted by any embedded code. -/
structure CommonlyEvent where
  eventId : Option String := none
  type : String
  podId : String
  payload : Option EventPayload := none
  deriving Repr, DecidableEq

/-- `event._id` as the string the code tests for truthiness. -/
def eventIdStr (e : CommonlyEvent) : String := e.eventId.getD ""

/-- `event.payload?.content?.trim() || ""`. -/
def eventContentTrim (e : CommonlyEvent) : String :=
  ((e.payload.bind (fun p => p.content)).map jsTrim).getD ""

/-- `event.payload?.thread?.postContent`, as the string tested for
truthiness (absent becomes `""`). -/
def threadPostContent (e : CommonlyEvent) : String :=
  ((e.payload.bind (fun p => p.thread)).bind (fun t => t.postContent)).getD ""

/-! ## Body formatters (`src/extensions/commonly/src/channel.ts`) -/

/-- `buildSummaryMessage` from `channel.ts`. -/
def buildSummaryMessage (summary : Option SummaryInfo) : String :=
  match summary with
  | none => ""
  | some s =>
    let title := jsOr (s.title.map jsTrim) "Commonly Update"
    let channelName := (s.channelName.map jsTrim).getD ""
    let lines := [title]
      ++ (if channelName ≠ "" then ["🔗 #" ++ channelName] else [])
      ++ (match s.messageCount with
          | some n => if n ≠ 0 then ["💬 " ++ toString n ++ " messages"] else []
          | none => [])
      ++ (match s.timeRange with
          | some t => if t ≠ "" then ["🕐 " ++ t] else []
          | none => [])
      ++ (match s.content with
          | some c => if c ≠ "" then ["", c] else []
          | none => [])
    String.intercalate "\n" lines

/-- `formatThreadBody` from `channel.ts`. -/
def formatThreadBody (e : CommonlyEvent) : String :=
  let content := eventContentTrim e
  match e.payload.bind (fun p => p.thread) with
  | none => content
  | some th =>
    let pc := th.postContent.getD ""
    if pc = "" then content
    else
      String.intercalate "\n\n"
        (["Post: " ++ jsTrim pc]
          ++ (if content ≠ "" then ["Comment: " ++ content] else []))

/-- The starter/responder framing sentence of an ensemble turn. -/
def starterSentence (isStarter : Bool) : String :=
  if isStarter then "You are the starter. Provide the opening message."
  else "You are responding to the ongoing discussion."

/-- `formatEnsembleTurnBody` from `channel.ts`. -/
def formatEnsembleTurnBody (e : CommonlyEvent) : String :=
  match e.payload.bind (fun p => p.context) with
  | none => ""
  | some c =>
    let participants := (e.payload.bind (fun p => p.participants)).getD []
    let lines :=
      ["Ensemble topic: " ++ c.topic,
       "Turn: " ++ toString c.turnNumber ++ " (round " ++ toString c.roundNumber ++ ")",
       starterSentence c.isStarter]
      ++ (if participants.length > 0 then
            ["Participants: " ++ String.intercalate ", "
              (participants.map (fun p =>
                jsOr p.displayName p.agentType ++ " (" ++ p.agentType ++ ":"
                  ++ jsOr p.instanceId "default" ++ ")"))]
          else [])
      ++ (if c.recentHistory.length ≠ 0 then
            ["", "Recent history:"]
              ++ (lastFive c.recentHistory).map
                  (fun entry => "- " ++ entry.agentType ++ ": " ++ entry.content)
          else [])
      ++ (if c.keyPoints.length ≠ 0 then
            ["", "Key points:"]
              ++ (lastFive c.keyPoints).map (fun entry => "- " ++ entry.content)
          else [])
    String.intercalate "\n" lines

/-! ## The `ws.onEvent` handler of the plugin (`channel.ts`, gateway section)

The handler is embedded as a function producing the ordered list of
observable actions it performs.  External collaborators are parameters of
the environment: the abort flag, the `responsePrefix` value produced by
`createReplyPrefixContext`, the reply blocks the host dispatcher delivers
through the `deliver` callback, and the opaque directive-stripping text
transform used by `sanitizeOutboundText`. -/

/-- One observable action of the event handler, in execution order. -/
inductive HandlerAction where
  | statusInbound
  | recordSession
  | dispatchReply (respPfx : Option String) (body : String)
  | postMessage (podId : String) (text : String)
  | postThreadComment (threadId : String) (text : String)
  | reportEnsemble (podId : String) (ensembleId : String) (text : String)
  | statusOutbound
  | ackEvent (eventId : String)
  deriving Repr, DecidableEq

/-- Whether an action is an acknowledgment call. -/
def HandlerAction.isAck : HandlerAction → Bool
  | .ackEvent _ => true
  | _ => false

/-- Whether an action is the reply-dispatch invocation. -/
def HandlerAction.isDispatch : HandlerAction → Bool
  | .dispatchReply _ _ => true
  | _ => false

/-- A `ReplyPayload` delivered by the host dispatcher. -/
structure ReplyPayload where
  text : Option String := none
  mediaUrl : Option String := none
  deriving Repr, DecidableEq

/-- The external collaborators of one handler invocation. -/
structure HandlerEnv where
  aborted : Bool
  respPfx : Option String
  blocks : List ReplyPayload
  sanitize : String → String

/-- `sanitizeOutboundText` from `channel.ts`: empty input stays empty,
otherwise the opaque `parseInlineDirectives(...).text` transform applies. -/
def sanitizeOutboundText (f : String → String) (t : String) : String :=
  if t = "" then "" else f t

/-- `[text.trim(), mediaUrl?.trim() || ""].filter(Boolean).join("\n")`. -/
def joinBlockText (parts : List String) : String :=
  String.intercalate "\n" (parts.filter (fun s => s ≠ ""))

/-- The `deliver` callback of the handler for one reply block, given the
one-shot `ensembleResponseSent` flag; returns the actions performed and
the updated flag. -/
def deliverOne (env : HandlerEnv) (e : CommonlyEvent) (threadId : String)
    (sent : Bool) (b : ReplyPayload) : List HandlerAction × Bool :=
  let text := sanitizeOutboundText env.sanitize (b.text.getD "")
  let message := joinBlockText [jsTrim text, (b.mediaUrl.map jsTrim).getD ""]
  if message = "" then ([], sent)
  else if threadId ≠ "" then
    ([HandlerAction.postThreadComment threadId message, HandlerAction.statusOutbound], sent)
  else
    let eid := (e.payload.bind (fun p => p.ensembleId)).getD ""
    if e.type = "ensemble.turn" ∧ sent = false then
      if eid ≠ "" then
        ([HandlerAction.postMessage e.podId message,
          HandlerAction.reportEnsemble e.podId eid message, HandlerAction.statusOutbound], true)
      else ([HandlerAction.postMessage e.podId message, HandlerAction.statusOutbound], sent)
    else ([HandlerAction.postMessage e.podId message, HandlerAction.statusOutbound], sent)

/-- Sequential delivery of all reply blocks of one dispatch. -/
def deliverBlocks (env : HandlerEnv) (e : CommonlyEvent) (threadId : String) :
    Bool → List ReplyPayload → List HandlerAction
  | _, [] => []
  | sent, b :: rest =>
    let r := deliverOne env e threadId sent b
    r.1 ++ deliverBlocks env e threadId r.2 rest

/-- `if (event._id) await client.ackEvent(event._id)`. -/
def ackActions (e : CommonlyEvent) : List HandlerAction :=
  if eventIdStr e ≠ "" then [HandlerAction.ackEvent (eventIdStr e)] else []

/-- `event.type === "thread.mention" ? event.payload?.thread?.postId :
undefined`, as the string tested for truthiness. -/
def threadIdFor (e : CommonlyEvent) : String :=
  if e.type = "thread.mention" then
    ((e.payload.bind (fun p => p.thread)).map (fun t => t.postId)).getD ""
  else ""

/-- The `ws.onEvent` handler from `channel.ts`, as the ordered list of
observable actions it performs. -/
def handleEvent (env : HandlerEnv) (e : CommonlyEvent) : List HandlerAction :=
  if env.aborted then []
  else if e.podId = "" then []
  else
    HandlerAction.statusInbound ::
      (if e.type = "summary.request" then
        (let summaryText := buildSummaryMessage (e.payload.bind (fun p => p.summary))
         (if summaryText ≠ "" then [HandlerAction.postMessage e.podId summaryText] else [])
           ++ ackActions e)
      else
        let rawContent :=
          if e.type = "ensemble.turn" then formatEnsembleTurnBody e
          else eventContentTrim e
        if rawContent = "" then ackActions e
        else
          let threadId := threadIdFor e
          let body := if e.type = "thread.mention" then formatThreadBody e else rawContent
          HandlerAction.recordSession :: HandlerAction.dispatchReply env.respPfx body ::
            (deliverBlocks env e threadId false env.blocks ++ ackActions e))

/-! ## `CommonlyWebSocket` (`src/src/channels/commonly/websocket.ts`) -/

/-- A downstream wire message emitted on the socket. -/
inductive WireMsg where
  | subscribe (podIds : List String)
  | unsubscribe (podIds : List String)
  deriving Repr, DecidableEq

/-- The mutable state of a `CommonlyWebSocket`: whether a socket handle
exists (`this.socket !== null`), whether that socket is currently
connected, and the tracked `subscribedPodIds` list. -/
structure WsState where
  hasSocket : Bool
  connected : Bool
  subscribedPodIds : List String
  deriving Repr, DecidableEq

namespace CommonlyWebSocket

/-- `subscribe(podIds)`: no-op without a socket handle or on an empty
list; otherwise stores the deduplicated union and emits the given ids. -/
def subscribe (s : WsState) (podIds : List String) : WsState × List WireMsg :=
  if s.hasSocket = false then (s, [])
  else if podIds = [] then (s, [])
  else ({ s with subscribedPodIds := jsSetDedup (s.subscribedPodIds ++ podIds) },
        [WireMsg.subscribe podIds])

/-- `unsubscribe(podIds)`: no-op without a socket handle or on an empty
list; otherwise removes the given ids and emits them. -/
def unsubscribe (s : WsState) (podIds : List String) : WsState × List WireMsg :=
  if s.hasSocket = false then (s, [])
  else if podIds = [] then (s, [])
  else ({ s with subscribedPodIds :=
            s.subscribedPodIds.filter (fun id => !(podIds.contains id)) },
        [WireMsg.unsubscribe podIds])

/-- The `connect`-event handler body: replay the entire tracked set as one
subscribe call when it is non-empty. -/
def onConnect (s : WsState) : List WireMsg :=
  if s.subscribedPodIds.length > 0 then [WireMsg.subscribe s.subscribedPodIds] else []

end CommonlyWebSocket

/-! ## `CommonlyClient` (`src/src/channels/commonly/client.ts`)

Each method is embedded as a function from the client config, the method
arguments, and the HTTP response the single `fetch` would produce, to an
`ApiCall` record: whether the fetch was issued at all (header computation
throws first), the Authorization header value it carried, whether a
`console.warn` was logged, and the outcome. Response bodies whose
TypeScript type is `unknown` (or is otherwise never inspected) are type
parameters. -/

/-- `CommonlyClientConfig`. -/
structure CommonlyClientConfig where
  baseUrl : String := ""
  runtimeToken : Option String := none
  userToken : Option String := none
  agentName : Option String := none
  instanceId : Option String := none
  deriving Repr, DecidableEq

/-- The `Message` shape returned by `postMessage` (fields not consulted by
the embedded code are omitted). -/
structure Message where
  id : String
  content : String := ""
  deriving Repr, DecidableEq

/-- The `{ content }` shape returned by `readMemory`. -/
structure MemoryFile where
  content : String
  deriving Repr, DecidableEq

/-- The response of the one `fetch` a client method performs: `res.ok`,
`res.status`, and the value `res.json()` would parse. -/
structure HttpResponse (α : Type) where
  ok : Bool
  status : Nat
  body : α
  deriving Repr, DecidableEq

/-- The outcome of a client method call: a configuration error thrown by
the header getter, an error thrown on a non-success status, or a value. -/
inductive Outcome (α : Type) where
  | configError (msg : String)
  | httpError (msg : String)
  | value (v : α)
  deriving Repr, DecidableEq

/-- The observable effect of one client method call. -/
structure ApiCall (α : Type) where
  fetched : Bool
  auth : Option String
  warned : Bool
  outcome : Outcome α
  deriving Repr, DecidableEq

namespace CommonlyClient

/-- `this.config.runtimeToken?.trim()`, with absence as `""`. -/
def runtimeTokenTrim (c : CommonlyClientConfig) : String :=
  (c.runtimeToken.map jsTrim).getD ""

/-- `this.config.userToken?.trim()`, with absence as `""`. -/
def userTokenTrim (c : CommonlyClientConfig) : String :=
  (c.userToken.map jsTrim).getD ""

/-- The `runtimeHeaders` getter, reduced to the Authorization value it
produces (the Content-Type header is a constant). -/
def runtimeAuth (c : CommonlyClientConfig) : Except String String :=
  if runtimeTokenTrim c = "" then Except.error "Commonly runtime token is required"
  else Except.ok ("Bearer " ++ runtimeTokenTrim c)

/-- The `userHeaders` getter: `userToken?.trim() || runtimeToken?.trim()`,
reduced to the Authorization value it produces. -/
def userAuth (c : CommonlyClientConfig) : Except String String :=
  let token := if userTokenTrim c = "" then runtimeTokenTrim c else userTokenTrim c
  if token = "" then Except.error "Commonly user token is required"
  else Except.ok ("Bearer " ++ token)

/-- `fetchEvents()`: runtime auth; throws on non-success; `data.events || []`. -/
def fetchEvents {ε : Type} (c : CommonlyClientConfig)
    (res : HttpResponse (Option (List ε))) : ApiCall (List ε) :=
  match runtimeAuth c with
  | .error msg => ⟨false, none, false, .configError msg⟩
  | .ok a =>
    if res.ok then ⟨true, some a, false, .value (res.body.getD [])⟩
    else ⟨true, some a, false, .httpError ("Failed to fetch events: " ++ toString res.status)⟩

/-- `ackEvent(eventId)`: runtime auth; throws on non-success. -/
def ackEvent (c : CommonlyClientConfig) (eventId : String)
    (res : HttpResponse Unit) : ApiCall Unit :=
  match runtimeAuth c with
  | .error msg => ⟨false, none, false, .configError msg⟩
  | .ok a =>
    if res.ok then ⟨true, some a, false, .value ()⟩
    else ⟨true, some a, false, .httpError ("Failed to ack event: " ++ toString res.status)⟩

/-- `postMessage(podId, content, metadata)`: runtime auth; throws on
non-success; returns the parsed message. -/
def postMessage (c : CommonlyClientConfig) (podId : String) (content : String)
    (res : HttpResponse Message) : ApiCall Message :=
  match runtimeAuth c with
  | .error msg => ⟨false, none, false, .configError msg⟩
  | .ok a =>
    if res.ok then ⟨true, some a, false, .value res.body⟩
    else ⟨true, some a, false, .httpError ("Failed to post message: " ++ toString res.status)⟩

/-- `postThreadComment(threadId, content)`: runtime auth; throws on
non-success. -/
def postThreadComment {υ : Type} (c : CommonlyClientConfig) (threadId : String)
    (content : String) (res : HttpResponse υ) : ApiCall υ :=
  match runtimeAuth c with
  | .error msg => ⟨false, none, false, .configError msg⟩
  | .ok a =>
    if res.ok then ⟨true, some a, false, .value res.body⟩
    else ⟨true, some a, false,
      .httpError ("Failed to post thread comment: " ++ toString res.status)⟩

/-- `getContext(podId, task)`: runtime auth; on non-success warns and
returns `null`. -/
def getContext {γ : Type} (c : CommonlyClientConfig) (podId : String)
    (task : Option String) (res : HttpResponse (Option γ)) : ApiCall (Option γ) :=
  match runtimeAuth c with
  | .error msg => ⟨false, none, false, .configError msg⟩
  | .ok a =>
    if res.ok then ⟨true, some a, false, .value res.body⟩
    else ⟨true, some a, true, .value none⟩

/-- `getMessages(podId, limit)`: runtime auth; on non-success warns and
returns `[]`; otherwise `data.messages || []`. -/
def getMessages (c : CommonlyClientConfig) (podId : String) (limit : Nat)
    (res : HttpResponse (Option (List Message))) : ApiCall (List Message) :=
  match runtimeAuth c with
  | .error msg => ⟨false, none, false, .configError msg⟩
  | .ok a =>
    if res.ok then ⟨true, some a, false, .value (res.body.getD [])⟩
    else ⟨true, some a, true, .value []⟩

/-- `search(podId, query)`: user auth; on non-success warns and returns
`[]`; otherwise `data.results || []`. -/
def search {σ : Type} (c : CommonlyClientConfig) (podId : String) (query : String)
    (res : HttpResponse (Option (List σ))) : ApiCall (List σ) :=
  match userAuth c with
  | .error msg => ⟨false, none, false, .configError msg⟩
  | .ok a =>
    if res.ok then ⟨true, some a, false, .value (res.body.getD [])⟩
    else ⟨true, some a, true, .value []⟩

/-- `readMemory(podId, path)`: user auth; on non-success warns and
returns `null`. -/
def readMemory (c : CommonlyClientConfig) (podId : String) (path : String)
    (res : HttpResponse MemoryFile) : ApiCall (Option MemoryFile) :=
  match userAuth c with
  | .error msg => ⟨false, none, false, .configError msg⟩
  | .ok a =>
    if res.ok then ⟨true, some a, false, .value (some res.body)⟩
    else ⟨true, some a, true, .value none⟩

/-- `writeMemory(podId, target, content, options)`: user auth; throws on
non-success. -/
def writeMemory {ω : Type} (c : CommonlyClientConfig) (podId : String)
    (target : String) (content : String) (res : HttpResponse ω) : ApiCall ω :=
  match userAuth c with
  | .error msg => ⟨false, none, false, .configError msg⟩
  | .ok a =>
    if res.ok then ⟨true, some a, false, .value res.body⟩
    else ⟨true, some a, false, .httpError ("Failed to write memory: " ++ toString res.status)⟩

/-- `getSummaries(podId, hours)`: user auth; on non-success warns and
returns `[]`; otherwise `data.summaries || []`. -/
def getSummaries {σ : Type} (c : CommonlyClientConfig) (podId : String) (hours : Nat)
    (res : HttpResponse (Option (List σ))) : ApiCall (List σ) :=
  match userAuth c with
  | .error msg => ⟨false, none, false, .configError msg⟩
  | .ok a =>
    if res.ok then ⟨true, some a, false, .value (res.body.getD [])⟩
    else ⟨true, some a, true, .value []⟩

/-- `reportEnsembleResponse(podId, ensembleId, content, messageId)`:
runtime auth; on non-success it only warns — it then still returns
`res.json()`, the parsed response body, on every path. -/
def reportEnsembleResponse {ρ : Type} (c : CommonlyClientConfig) (podId : String)
    (ensembleId : String) (content : String) (messageId : Option String)
    (res : HttpResponse ρ) : ApiCall ρ :=
  match runtimeAuth c with
  | .error msg => ⟨false, none, false, .configError msg⟩
  | .ok a =>
    if res.ok then ⟨true, some a, false, .value res.body⟩
    else ⟨true, some a, true, .value res.body⟩

end CommonlyClient

/-! ## `CommonlyChannel.transformEvent` (`src/src/channels/commonly/index.ts`) -/

/-- `CommonlyInboundMessage` (the `timestamp` field, `new Date()`, and the
heterogeneous `metadata` record are omitted). The `msgType` field embeds
the `type` discriminator string of the inbound message. -/
structure CommonlyInboundMessage where
  id : String
  channelId : String
  channelName : String
  senderId : String
  senderName : String
  msgType : String
  content : String
  deriving Repr, DecidableEq

namespace CommonlyChannel

/-- `transformEvent` from `CommonlyChannel`, taking the destructured
`{ type, podId, payload, _id }` of the raw event. The default branch logs
the unknown type and returns `null`. -/
def transformEvent (type : String) (podId : String) (payload : EventPayload)
    (idv : String) : Option CommonlyInboundMessage :=
  let senderId := jsOr payload.userId "unknown"
  let senderName := jsOr payload.username "Unknown"
  if type = "chat.mention" then
    some ⟨idv, podId, "commonly", senderId, senderName, "message", payload.content.getD ""⟩
  else if type = "thread.mention" then
    some ⟨idv, podId, "commonly", senderId, senderName, "thread_mention",
          payload.content.getD ""⟩
  else if type = "ensemble.turn" then
    some ⟨idv, podId, "commonly", senderId, senderName, "ensemble_turn",
          jsOr (payload.context.map (fun c => c.topic)) ""⟩
  else none

end CommonlyChannel

/-! ## Concrete fixtures used by witnesses and counterexamples -/

/-- An identity text transform standing in for the opaque
directive-stripping sanitizer in concrete runs. -/
def idTransform : String → String := fun s => s

/-- Handler environment: not aborted, no configured reply-prefix, and a
dispatcher that delivers no reply block. -/
def envNoBlocks : HandlerEnv := ⟨false, none, [], idTransform⟩

/-- Handler environment whose dispatcher delivers one text block. -/
def envOneBlock : HandlerEnv := ⟨false, none, [⟨some "reply text", none⟩], idTransform⟩

/-- Handler environment with the configured reply-prefix of the ensemble
test fixture (`"My response:"`) and no delivered blocks. -/
def envMyResp : HandlerEnv := ⟨false, some "My response:", [], idTransform⟩

/-- The `heartbeat` event of `channel.heartbeat.test.ts` with no
`payload.content`. -/
def heartbeatNoContentEvent : CommonlyEvent :=
  { eventId := some "evt-heartbeat", type := "heartbeat", podId := "pod-1",
    payload := some {} }

/-- The `ensemble.turn` event of `channel.ensemble.test.ts`. -/
def ensembleTestEvent : CommonlyEvent :=
  { eventId := some "event-123", type := "ensemble.turn", podId := "pod-abc",
    payload := some
      { ensembleId := some "ensemble-xyz",
        participants := some
          [{ agentType := "openclaw", instanceId := some "cuz",
             displayName := some "Cuz", role := some "starter" },
           { agentType := "openclaw", instanceId := some "tarik",
             displayName := some "Tarik", role := some "responder" }],
        context := some
          { topic := "Test Discussion", turnNumber := 0, roundNumber := 0,
            isStarter := true } } }

/-- An event whose type is outside the recognized set and whose payload
carries non-empty content. -/
def unknownTypeEvent : CommonlyEvent :=
  { eventId := some "evt-x", type := "mystery.event", podId := "pod-1",
    payload := some { content := some "hello" } }

/-- A `thread.mention` event with both post content and comment content. -/
def threadTestEvent : CommonlyEvent :=
  { eventId := some "evt-t", type := "thread.mention", podId := "pod-1",
    payload := some
      { content := some "Nice post",
        thread := some { postId := "post-9", postContent := some "Original post text" } } }

/-- A plain `chat.mention` event with content and an id. -/
def chatTestEvent : CommonlyEvent :=
  { eventId := some "evt-chat", type := "chat.mention", podId := "pod-1",
    payload := some { content := some "hello agent" } }

/-- An event whose `podId` is empty. -/
def emptyPodEvent : CommonlyEvent :=
  { eventId := some "evt-nopod", type := "chat.mention", podId := "",
    payload := some { content := some "hi" } }

/-- Socket state before `connect()` was ever called (no socket handle). -/
def wsNoSocket : WsState := ⟨false, false, []⟩

/-- Socket state of a live connection with an empty tracked set. -/
def wsLive : WsState := ⟨true, true, []⟩

/-- Client config with no credential at all. -/
def cfgNoTokens : CommonlyClientConfig := {}

/-- Client config with both tokens. -/
def cfgBothTokens : CommonlyClientConfig :=
  { runtimeToken := some "rt", userToken := some "ut" }

/-- Client config with a runtime token only. -/
def cfgRtOnly : CommonlyClientConfig := { runtimeToken := some "rt" }

/-- Client config with a user token only. -/
def cfgUserOnly : CommonlyClientConfig := { userToken := some "ut" }

/-! ## Theorems -/

/-- Claim C1. The claim states that a `heartbeat` event with no payload
content gets a fixed fallback body ("System heartbeat from Commonly
scheduler", per `channel.heartbeat.test.ts` and the heartbeat test in
`index.test.ts`) and is still dispatched. The code disagrees with its own
tests: the `ws.onEvent` handler computes an empty body for such an event,
acknowledges it and returns without dispatching, and
`CommonlyChannel.transformEvent` maps it to `null` through the default
branch (the `resolveInboundBody` function the heartbeat test imports does
not exist in `channel.ts`). This theorem evaluates both at the failing
input. -/
theorem heartbeat_without_content_dropped_not_dispatched :
    handleEvent envNoBlocks heartbeatNoContentEvent
      = [HandlerAction.statusInbound, HandlerAction.ackEvent "evt-heartbeat"] ∧
    CommonlyChannel.transformEvent "heartbeat" "pod-1" {} "evt-heartbeat" = none := by
  constructor <;> rfl

/-- Claim C2. The claim states that no configured reply-prefix ever
reaches a reply to an `ensemble.turn` event (unconditional suppression).
The code disagrees with its own test file (`channel.ensemble.test.ts`,
which documents that the dispatcher should be invoked with
`responsePrefix = undefined` for ensemble turns): the handler passes the
configured prefix unchanged in the dispatcher options for every event
type. Evaluated at the test fixture event with configured prefix
`"My response:"`, the dispatch action carries that prefix; the synthesized
body does contain the starter sentence as claimed. -/
theorem ensemble_turn_dispatch_carries_configured_reply_pfx :
    handleEvent envMyResp ensembleTestEvent
      = [HandlerAction.statusInbound, HandlerAction.recordSession,
         HandlerAction.dispatchReply (some "My response:")
           ("Ensemble topic: Test Discussion\nTurn: 0 (round 0)\n"
             ++ starterSentence true
             ++ "\nParticipants: Cuz (openclaw:cuz), Tarik (openclaw:tarik)"),
         HandlerAction.ackEvent "event-123"] ∧
    starterSentence true = "You are the starter. Provide the opening message." ∧
    (some "My response:" : Option String) ≠ none := by
  refine ⟨by rfl, by rfl, by decide⟩

/-- Claim C3, counterexample. An event whose type is outside the
recognized set but whose payload carries non-empty content is dispatched
by the `ws.onEvent` handler (the orchestrator treats every type it does
not special-case as a generic message), contradicting the claim that no
reply dispatch occurs for such an event. -/
theorem unknown_type_event_with_content_is_dispatched :
    ((handleEvent envNoBlocks unknownTypeEvent).any (fun a => a.isDispatch)) = true ∧
    handleEvent envNoBlocks unknownTypeEvent
      = [HandlerAction.statusInbound, HandlerAction.recordSession,
         HandlerAction.dispatchReply none "hello",
         HandlerAction.ackEvent "evt-x"] := by
  refine ⟨by rfl, by rfl⟩

/-- Claim C10. An inbound event whose `podId` is missing or empty makes
the handler a complete no-op: no status update, no dispatch, no
acknowledgment, regardless of the rest of the environment and event. -/
theorem empty_pod_id_event_is_complete_noop (env : HandlerEnv) (e : CommonlyEvent)
    (h : e.podId = "") : handleEvent env e = [] := by
  unfold handleEvent
  by_cases hab : env.aborted <;> simp [hab, h]

/-- Witness for the C10 theorem at a concrete event carrying an id and
non-empty content but an empty `podId`. -/
theorem empty_pod_id_event_is_complete_noop_witness :
    handleEvent envNoBlocks emptyPodEvent = [] :=
  empty_pod_id_event_is_complete_noop envNoBlocks emptyPodEvent (by rfl)

/-- String-append associativity combined with merging the two literal
pieces `"\n\n"` and `"Comment: "`. -/
lemma post_comment_append (p c : String) :
    p ++ "\n\n" ++ ("Comment: " ++ c) = p ++ "\n\nComment: " ++ c := by
  rw [String.append_assoc, String.append_assoc, ← String.append_assoc "\n\n"]
  rfl

/-- Normal form of `formatThreadBody`: the three-way case split on post
content and comment content. -/
lemma formatThreadBody_eq (e : CommonlyEvent) :
    formatThreadBody e =
      if threadPostContent e = "" then eventContentTrim e
      else if eventContentTrim e = "" then "Post: " ++ jsTrim (threadPostContent e)
      else "Post: " ++ jsTrim (threadPostContent e) ++ "\n\nComment: " ++ eventContentTrim e := by
  cases hp : e.payload with
  | none => simp [formatThreadBody, threadPostContent, hp]
  | some p =>
    cases ht : p.thread with
    | none => simp [formatThreadBody, threadPostContent, hp, ht]
    | some th =>
      cases hpc : th.postContent with
      | none => simp [formatThreadBody, threadPostContent, hp, ht, hpc]
      | some pcv =>
        by_cases hz : pcv = ""
        · simp [formatThreadBody, threadPostContent, hp, ht, hpc, hz]
        · by_cases hc : eventContentTrim e = ""
          · simp [formatThreadBody, threadPostContent, hp, ht, hpc, hz, hc]
            rfl
          · have h2 : formatThreadBody e = String.intercalate "\n\n"
                ["Post: " ++ jsTrim pcv, "Comment: " ++ eventContentTrim e] := by
              simp [formatThreadBody, hp, ht, hpc, hz, hc]
            rw [h2,
              show String.intercalate "\n\n"
                    ["Post: " ++ jsTrim pcv, "Comment: " ++ eventContentTrim e]
                  = "Post: " ++ jsTrim pcv ++ "\n\n" ++ ("Comment: " ++ eventContentTrim e)
                from rfl,
              post_comment_append]
            simp [threadPostContent, hp, ht, hpc, hz, hc]

/-- Claim C9. `formatThreadBody`: with post content and non-empty comment
content the body is `"Post: <post>\n\nComment: <comment>"`; with post
content and empty comment content it is just the post line; with no post
content it is the bare (trimmed) comment content. The post content is
trimmed in the output but tested for truthiness untrimmed, exactly as in
the source. -/
theorem thread_mention_body_cases (e : CommonlyEvent) :
    (threadPostContent e ≠ "" → eventContentTrim e ≠ "" →
      formatThreadBody e
        = "Post: " ++ jsTrim (threadPostContent e) ++ "\n\nComment: " ++ eventContentTrim e) ∧
    (threadPostContent e ≠ "" → eventContentTrim e = "" →
      formatThreadBody e = "Post: " ++ jsTrim (threadPostContent e)) ∧
    (threadPostContent e = "" → formatThreadBody e = eventContentTrim e) := by
  refine ⟨fun h1 h2 => ?_, fun h1 h2 => ?_, fun h1 => ?_⟩
  · rw [formatThreadBody_eq, if_neg h1, if_neg h2]
  · rw [formatThreadBody_eq, if_neg h1, if_pos h2]
  · rw [formatThreadBody_eq, if_pos h1]

/-- Witness for the C9 theorem: the thread fixture with both post and
comment content yields the composed two-part body. -/
theorem thread_mention_body_cases_witness :
    formatThreadBody threadTestEvent = "Post: Original post text\n\nComment: Nice post" :=
  ((thread_mention_body_cases threadTestEvent).1 (by decide) (by decide)).trans (by rfl)

/-- The delivery callback never performs an acknowledgment. -/
lemma deliverOne_no_ack (env : HandlerEnv) (e : CommonlyEvent) (tid : String)
    (sent : Bool) (b : ReplyPayload) :
    ∀ a ∈ (deliverOne env e tid sent b).1, a.isAck = false := by
  intro a ha
  simp only [deliverOne] at ha
  split_ifs at ha
  · simp at ha
  · simp only [List.mem_cons, List.not_mem_nil, or_false] at ha
    rcases ha with h | h <;> subst h <;> rfl
  · simp only [List.mem_cons, List.not_mem_nil, or_false] at ha
    rcases ha with h | h | h <;> subst h <;> rfl
  · simp only [List.mem_cons, List.not_mem_nil, or_false] at ha
    rcases ha with h | h <;> subst h <;> rfl
  · simp only [List.mem_cons, List.not_mem_nil, or_false] at ha
    rcases ha with h | h <;> subst h <;> rfl

/-- The whole buffered delivery loop never performs an acknowledgment. -/
lemma deliverBlocks_no_ack (env : HandlerEnv) (e : CommonlyEvent) (tid : String) :
    ∀ (blocks : List ReplyPayload) (sent : Bool),
      ∀ a ∈ deliverBlocks env e tid sent blocks, a.isAck = false := by
  intro blocks
  induction blocks with
  | nil => intro sent a ha; simp [deliverBlocks] at ha
  | cons b rest ih =>
    intro sent a ha
    simp only [deliverBlocks, List.mem_append] at ha
    rcases ha with h | h
    · exact deliverOne_no_ack env e tid sent b a h
    · exact ih _ a h

/-- Claim C7. Every processed event (not aborted, non-empty `podId`) that
carries an id is acknowledged exactly once, and the acknowledgment is the
final action of the handler — in particular it comes after the reply
dispatch and after every delivered block, for any number (0, 1 or N) of
reply blocks the dispatcher produces. -/
theorem processed_event_with_id_acked_once_last (env : HandlerEnv) (e : CommonlyEvent)
    (hab : env.aborted = false) (hpod : e.podId ≠ "") (hid : eventIdStr e ≠ "") :
    ∃ pre : List HandlerAction,
      handleEvent env e = pre ++ [HandlerAction.ackEvent (eventIdStr e)] ∧
      ∀ a ∈ pre, a.isAck = false := by
  have hack : ackActions e = [HandlerAction.ackEvent (eventIdStr e)] := by
    simp [ackActions, hid]
  unfold handleEvent
  rw [if_neg (by simp [hab]), if_neg hpod]
  by_cases hsum : e.type = "summary.request"
  · rw [if_pos hsum]
    refine ⟨HandlerAction.statusInbound ::
      (if buildSummaryMessage (e.payload.bind (fun p => p.summary)) ≠ "" then
        [HandlerAction.postMessage e.podId
          (buildSummaryMessage (e.payload.bind (fun p => p.summary)))]
      else []), ?_, ?_⟩
    · simp [hack]
    · intro a ha
      rcases List.mem_cons.mp ha with h | h
      · simp [h, HandlerAction.isAck]
      · split_ifs at h <;> simp_all [HandlerAction.isAck]
  · rw [if_neg hsum]
    by_cases hraw : (if e.type = "ensemble.turn" then formatEnsembleTurnBody e
        else eventContentTrim e) = ""
    · rw [if_pos hraw]
      exact ⟨[HandlerAction.statusInbound], by simp [hack], by
        intro a ha; simp at ha; simp [ha, HandlerAction.isAck]⟩
    · rw [if_neg hraw]
      refine ⟨HandlerAction.statusInbound :: HandlerAction.recordSession ::
        HandlerAction.dispatchReply env.respPfx
          (if e.type = "thread.mention" then formatThreadBody e
           else if e.type = "ensemble.turn" then formatEnsembleTurnBody e
           else eventContentTrim e) ::
        deliverBlocks env e (threadIdFor e) false env.blocks, ?_, ?_⟩
      · simp [hack]
      · intro a ha
        rcases List.mem_cons.mp ha with h | ha
        · simp [h, HandlerAction.isAck]
        rcases List.mem_cons.mp ha with h | ha
        · simp [h, HandlerAction.isAck]
        rcases List.mem_cons.mp ha with h | ha
        · simp [h, HandlerAction.isAck]
        · exact deliverBlocks_no_ack env e (threadIdFor e) env.blocks false a ha

/-- Witness for the C7 theorem at a concrete chat-mention event and a
dispatcher delivering one block. -/
theorem processed_event_with_id_acked_once_last_witness :
    ∃ pre : List HandlerAction,
      handleEvent envOneBlock chatTestEvent
        = pre ++ [HandlerAction.ackEvent (eventIdStr chatTestEvent)] ∧
      ∀ a ∈ pre, a.isAck = false :=
  processed_event_with_id_acked_once_last envOneBlock chatTestEvent
    (by rfl) (by decide) (by decide)

/-- Claim C6, counterexample. When no socket handle exists (before
`connect()` is ever called, or after `disconnect()`), a `subscribe` call
leaves the tracked set unchanged — contradicting the claim that the
tracked set is updated optimistically by every subscribe/unsubscribe call
regardless of current connection state. -/
theorem subscribe_without_socket_does_not_update_tracked_set :
    (CommonlyWebSocket.subscribe wsNoSocket ["pod-a"]).1.subscribedPodIds = [] ∧
    (CommonlyWebSocket.subscribe wsNoSocket ["pod-a"]).1.subscribedPodIds ≠ ["pod-a"] ∧
    (CommonlyWebSocket.subscribe wsNoSocket ["pod-a"]).2 = [] ∧
    (CommonlyWebSocket.unsubscribe wsNoSocket ["pod-a"]) = (wsNoSocket, []) := by
  refine ⟨by rfl, by decide, by rfl, by rfl⟩

/-- Claim C6 as amended. While a socket handle exists, every non-empty
`subscribe`/`unsubscribe` call updates the tracked set optimistically —
whatever the `connected` flag is (the code never consults it); calls made
with no socket handle change nothing and emit nothing. On every
(re)connect with a non-empty tracked set exactly one subscribe call is
emitted carrying the entire current set; with an empty tracked set no
subscribe call is emitted. -/
theorem tracked_set_update_and_reconnect_replay (s : WsState) (podIds : List String)
    (hs : s.hasSocket = true) (hne : podIds ≠ []) :
    (CommonlyWebSocket.subscribe s podIds).1.subscribedPodIds
        = jsSetDedup (s.subscribedPodIds ++ podIds) ∧
    (CommonlyWebSocket.subscribe s podIds).2 = [WireMsg.subscribe podIds] ∧
    (CommonlyWebSocket.unsubscribe s podIds).1.subscribedPodIds
        = s.subscribedPodIds.filter (fun id => !(podIds.contains id)) ∧
    (CommonlyWebSocket.unsubscribe s podIds).2 = [WireMsg.unsubscribe podIds] ∧
    (∀ s' : WsState, s'.hasSocket = false →
        CommonlyWebSocket.subscribe s' podIds = (s', []) ∧
        CommonlyWebSocket.unsubscribe s' podIds = (s', [])) ∧
    (s.subscribedPodIds ≠ [] →
        CommonlyWebSocket.onConnect s = [WireMsg.subscribe s.subscribedPodIds]) ∧
    (s.subscribedPodIds = [] → CommonlyWebSocket.onConnect s = []) := by
  refine ⟨?_, ?_, ?_, ?_, ?_, ?_, ?_⟩
  · simp [CommonlyWebSocket.subscribe, hs, hne]
  · simp [CommonlyWebSocket.subscribe, hs, hne]
  · simp [CommonlyWebSocket.unsubscribe, hs, hne]
  · simp [CommonlyWebSocket.unsubscribe, hs, hne]
  · intro s' hs'
    constructor <;> simp [CommonlyWebSocket.subscribe, CommonlyWebSocket.unsubscribe, hs']
  · intro hset
    simp [CommonlyWebSocket.onConnect, List.length_pos, hset]
  · intro hset
    simp [CommonlyWebSocket.onConnect, hset]

/-- Witness for the amended C6 theorem at a live socket with a tracked
set, a subscribe call, and a disconnected handle. -/
theorem tracked_set_update_and_reconnect_replay_witness :
    (CommonlyWebSocket.subscribe wsLive ["pod-a"]).1.subscribedPodIds
        = jsSetDedup (wsLive.subscribedPodIds ++ ["pod-a"]) ∧
    (CommonlyWebSocket.subscribe wsLive ["pod-a"]).2 = [WireMsg.subscribe ["pod-a"]] ∧
    (CommonlyWebSocket.unsubscribe wsLive ["pod-a"]).1.subscribedPodIds
        = wsLive.subscribedPodIds.filter (fun id => !(["pod-a"].contains id)) ∧
    (CommonlyWebSocket.unsubscribe wsLive ["pod-a"]).2 = [WireMsg.unsubscribe ["pod-a"]] ∧
    (∀ s' : WsState, s'.hasSocket = false →
        CommonlyWebSocket.subscribe s' ["pod-a"] = (s', []) ∧
        CommonlyWebSocket.unsubscribe s' ["pod-a"] = (s', [])) ∧
    (wsLive.subscribedPodIds ≠ [] →
        CommonlyWebSocket.onConnect wsLive = [WireMsg.subscribe wsLive.subscribedPodIds]) ∧
    (wsLive.subscribedPodIds = [] → CommonlyWebSocket.onConnect wsLive = []) :=
  tracked_set_update_and_reconnect_replay wsLive ["pod-a"] (by rfl) (by decide)

/-- Claim C8. With a socket handle and an empty tracked set: subscribing
`[a,b]` then `[b,c]` (distinct ids) leaves the tracked set exactly
`[a,b,c]` while the second wire call carries only `[b,c]`; unsubscribing
`[b]` then leaves `[a,c]` with a wire call carrying only `[b]`; calls with
an empty list mutate nothing and emit nothing. -/
theorem subscribe_unsubscribe_wire_and_set (a b c : String) (s : WsState)
    (hs : s.hasSocket = true) (h0 : s.subscribedPodIds = [])
    (hab : a ≠ b) (hac : a ≠ c) (hbc : b ≠ c) :
    (CommonlyWebSocket.subscribe (CommonlyWebSocket.subscribe s [a, b]).1 [b, c]).1.subscribedPodIds
        = [a, b, c] ∧
    (CommonlyWebSocket.subscribe (CommonlyWebSocket.subscribe s [a, b]).1 [b, c]).2
        = [WireMsg.subscribe [b, c]] ∧
    (CommonlyWebSocket.unsubscribe
        (CommonlyWebSocket.subscribe (CommonlyWebSocket.subscribe s [a, b]).1 [b, c]).1
        [b]).1.subscribedPodIds = [a, c] ∧
    (CommonlyWebSocket.unsubscribe
        (CommonlyWebSocket.subscribe (CommonlyWebSocket.subscribe s [a, b]).1 [b, c]).1
        [b]).2 = [WireMsg.unsubscribe [b]] ∧
    (∀ s' : WsState, CommonlyWebSocket.subscribe s' [] = (s', []) ∧
        CommonlyWebSocket.unsubscribe s' [] = (s', [])) := by
  have hset : (CommonlyWebSocket.subscribe (CommonlyWebSocket.subscribe s [a, b]).1
      [b, c]).1.subscribedPodIds = [a, b, c] := by
    simp only [CommonlyWebSocket.subscribe, hs, if_neg, ite_false]
    simp [h0, jsSetDedup, hab.symm, hac.symm, hbc.symm, hab, hac, hbc]
  refine ⟨hset, ?_, ?_, ?_, ?_⟩
  · simp [CommonlyWebSocket.subscribe, hs]
  · simp only [CommonlyWebSocket.unsubscribe, CommonlyWebSocket.subscribe, hs]
    simp [h0, jsSetDedup, hab.symm, hac.symm, hbc.symm, hab, hac, hbc]
  · simp [CommonlyWebSocket.unsubscribe, CommonlyWebSocket.subscribe, hs]
  · intro s'
    constructor <;> by_cases hs' : s'.hasSocket <;>
      simp [CommonlyWebSocket.subscribe, CommonlyWebSocket.unsubscribe, hs']

/-- Witness for the C8 theorem at concrete pod ids and a live socket. -/
theorem subscribe_unsubscribe_wire_and_set_witness :
    (CommonlyWebSocket.subscribe
        (CommonlyWebSocket.subscribe wsLive ["pa", "pb"]).1 ["pb", "pc"]).1.subscribedPodIds
        = ["pa", "pb", "pc"] ∧
    (CommonlyWebSocket.subscribe
        (CommonlyWebSocket.subscribe wsLive ["pa", "pb"]).1 ["pb", "pc"]).2
        = [WireMsg.subscribe ["pb", "pc"]] ∧
    (CommonlyWebSocket.unsubscribe
        (CommonlyWebSocket.subscribe
          (CommonlyWebSocket.subscribe wsLive ["pa", "pb"]).1 ["pb", "pc"]).1
        ["pb"]).1.subscribedPodIds = ["pa", "pc"] ∧
    (CommonlyWebSocket.unsubscribe
        (CommonlyWebSocket.subscribe
          (CommonlyWebSocket.subscribe wsLive ["pa", "pb"]).1 ["pb", "pc"]).1
        ["pb"]).2 = [WireMsg.unsubscribe ["pb"]] ∧
    (∀ s' : WsState, CommonlyWebSocket.subscribe s' [] = (s', []) ∧
        CommonlyWebSocket.unsubscribe s' [] = (s', [])) :=
  subscribe_unsubscribe_wire_and_set "pa" "pb" "pc" wsLive (by rfl) (by rfl)
    (by decide) (by decide) (by decide)

/-- Claim C3 as amended. For an event type outside the recognized set,
`CommonlyChannel.transformEvent` never raises and yields no inbound
message (default branch); the plugin orchestrator, however, treats any
type it does not special-case as a generic message: with empty trimmed
content the event is acknowledged (when it carries an id) with no
dispatch, but with non-empty content it is dispatched through the reply
pipeline. -/
theorem unrecognized_type_default_behavior
    (ty pod idv : String) (p : EventPayload)
    (hty : ty ∉ (["chat.mention", "thread.mention", "ensemble.turn"] : List String))
    (env : HandlerEnv) (e : CommonlyEvent)
    (hety : e.type ∉ (["chat.mention", "thread.mention", "summary.request",
                       "ensemble.turn", "pod.message", "heartbeat"] : List String))
    (hab : env.aborted = false) (hpod : e.podId ≠ "") :
    CommonlyChannel.transformEvent ty pod p idv = none ∧
    (eventContentTrim e = "" →
      handleEvent env e = HandlerAction.statusInbound :: ackActions e) ∧
    (eventContentTrim e ≠ "" →
      handleEvent env e = HandlerAction.statusInbound :: HandlerAction.recordSession ::
        HandlerAction.dispatchReply env.respPfx (eventContentTrim e) ::
        (deliverBlocks env e "" false env.blocks ++ ackActions e)) := by
  simp only [List.mem_cons, List.not_mem_nil, or_false, not_or] at hty hety
  obtain ⟨ht1, ht2, ht3⟩ := hty
  obtain ⟨he1, he2, he3, he4, he5, he6⟩ := hety
  refine ⟨?_, ?_, ?_⟩
  · simp [CommonlyChannel.transformEvent, ht1, ht2, ht3]
  · intro hc
    unfold handleEvent
    rw [if_neg (by simp [hab]), if_neg hpod, if_neg he3, if_neg he4, if_pos hc]
  · intro hc
    unfold handleEvent
    rw [if_neg (by simp [hab]), if_neg hpod, if_neg he3, if_neg he4, if_neg hc]
    unfold threadIdFor
    rw [if_neg he2, if_neg he2]

/-- Witness for the amended C3 theorem at a concrete unrecognized-type
event with non-empty content. -/
theorem unrecognized_type_default_behavior_witness :
    CommonlyChannel.transformEvent "mystery.event" "pod-1" { content := some "hello" } "evt-x"
        = none ∧
    (eventContentTrim unknownTypeEvent = "" →
      handleEvent envNoBlocks unknownTypeEvent
        = HandlerAction.statusInbound :: ackActions unknownTypeEvent) ∧
    (eventContentTrim unknownTypeEvent ≠ "" →
      handleEvent envNoBlocks unknownTypeEvent
        = HandlerAction.statusInbound :: HandlerAction.recordSession ::
          HandlerAction.dispatchReply envNoBlocks.respPfx (eventContentTrim unknownTypeEvent) ::
          (deliverBlocks envNoBlocks unknownTypeEvent "" false envNoBlocks.blocks
            ++ ackActions unknownTypeEvent)) :=
  unrecognized_type_default_behavior "mystery.event" "pod-1" "evt-x"
    { content := some "hello" } (by decide) envNoBlocks unknownTypeEvent
    (by decide) (by rfl) (by decide)

/-- Claim C4, counterexample. `getContext` uses the runtime headers, not
the user headers: with a user token present but no runtime token it raises
the runtime-token configuration error before any fetch — contradicting the
claim that context is user-scoped, prefers `userToken`, and raises only
when neither token is present. -/
theorem get_context_requires_runtime_token :
    CommonlyClient.getContext (γ := Unit) cfgUserOnly "pod-1" none ⟨true, 200, none⟩
        = ⟨false, none, false, Outcome.configError "Commonly runtime token is required"⟩ ∧
    cfgUserOnly.userToken = some "ut" := by
  refine ⟨by rfl, by rfl⟩

/-- Claim C4 as amended. Runtime-scoped methods — posting messages and
thread comments, acking, fetching agent events, reporting ensemble
responses, and also `getContext` — raise the runtime-token configuration
error before any fetch when `runtimeToken` is absent. User-scoped methods
— `search`, `readMemory`, `writeMemory`, `getSummaries` — prefer
`userToken`, fall back to `runtimeToken` when `userToken` is absent, and
raise a configuration error (before any fetch) only when neither token is
present. -/
theorem client_auth_classes
    (cR cU cF cN : CommonlyClientConfig)
    (hR : CommonlyClient.runtimeTokenTrim cR = "")
    (hU : CommonlyClient.userTokenTrim cU ≠ "")
    (hFu : CommonlyClient.userTokenTrim cF = "")
    (hFr : CommonlyClient.runtimeTokenTrim cF ≠ "")
    (hNu : CommonlyClient.userTokenTrim cN = "")
    (hNr : CommonlyClient.runtimeTokenTrim cN = "")
    (pod tid eid q path tgt content : String) (mid : Option String) (task : Option String)
    (r1 : HttpResponse Message) (r2 : HttpResponse Unit) (r3 : HttpResponse Unit)
    (r4 : HttpResponse (Option (List Unit))) (r5 : HttpResponse Unit)
    (r6 : HttpResponse (Option Unit)) (rs : HttpResponse (Option (List Unit)))
    (rm : HttpResponse MemoryFile) (rwm : HttpResponse Unit)
    (rg : HttpResponse (Option (List Unit))) :
    CommonlyClient.postMessage cR pod content r1
        = ⟨false, none, false, Outcome.configError "Commonly runtime token is required"⟩ ∧
    CommonlyClient.postThreadComment cR tid content r2
        = ⟨false, none, false, Outcome.configError "Commonly runtime token is required"⟩ ∧
    CommonlyClient.ackEvent cR eid r3
        = ⟨false, none, false, Outcome.configError "Commonly runtime token is required"⟩ ∧
    CommonlyClient.fetchEvents cR r4
        = ⟨false, none, false, Outcome.configError "Commonly runtime token is required"⟩ ∧
    CommonlyClient.reportEnsembleResponse cR pod eid content mid r5
        = ⟨false, none, false, Outcome.configError "Commonly runtime token is required"⟩ ∧
    CommonlyClient.getContext cR pod task r6
        = ⟨false, none, false, Outcome.configError "Commonly runtime token is required"⟩ ∧
    (CommonlyClient.search cU pod q rs).auth
        = some ("Bearer " ++ CommonlyClient.userTokenTrim cU) ∧
    (CommonlyClient.readMemory cU pod path rm).auth
        = some ("Bearer " ++ CommonlyClient.userTokenTrim cU) ∧
    (CommonlyClient.writeMemory cU pod tgt content rwm).auth
        = some ("Bearer " ++ CommonlyClient.userTokenTrim cU) ∧
    (CommonlyClient.getSummaries cU pod 24 rg).auth
        = some ("Bearer " ++ CommonlyClient.userTokenTrim cU) ∧
    (CommonlyClient.search cF pod q rs).auth
        = some ("Bearer " ++ CommonlyClient.runtimeTokenTrim cF) ∧
    (CommonlyClient.readMemory cF pod path rm).auth
        = some ("Bearer " ++ CommonlyClient.runtimeTokenTrim cF) ∧
    (CommonlyClient.writeMemory cF pod tgt content rwm).auth
        = some ("Bearer " ++ CommonlyClient.runtimeTokenTrim cF) ∧
    (CommonlyClient.getSummaries cF pod 24 rg).auth
        = some ("Bearer " ++ CommonlyClient.runtimeTokenTrim cF) ∧
    CommonlyClient.search cN pod q rs
        = ⟨false, none, false, Outcome.configError "Commonly user token is required"⟩ ∧
    CommonlyClient.readMemory cN pod path rm
        = ⟨false, none, false, Outcome.configError "Commonly user token is required"⟩ ∧
    CommonlyClient.writeMemory cN pod tgt content rwm
        = ⟨false, none, false, Outcome.configError "Commonly user token is required"⟩ ∧
    CommonlyClient.getSummaries cN pod 24 rg
        = ⟨false, none, false, Outcome.configError "Commonly user token is required"⟩ := by
  refine ⟨?_, ?_, ?_, ?_, ?_, ?_, ?_, ?_, ?_, ?_, ?_, ?_, ?_, ?_, ?_, ?_, ?_, ?_⟩
  · simp [CommonlyClient.postMessage, CommonlyClient.runtimeAuth, hR]
  · simp [CommonlyClient.postThreadComment, CommonlyClient.runtimeAuth, hR]
  · simp [CommonlyClient.ackEvent, CommonlyClient.runtimeAuth, hR]
  · simp [CommonlyClient.fetchEvents, CommonlyClient.runtimeAuth, hR]
  · simp [CommonlyClient.reportEnsembleResponse, CommonlyClient.runtimeAuth, hR]
  · simp [CommonlyClient.getContext, CommonlyClient.runtimeAuth, hR]
  · by_cases hok : rs.ok <;>
      simp [CommonlyClient.search, CommonlyClient.userAuth, hU, hok]
  · by_cases hok : rm.ok <;>
      simp [CommonlyClient.readMemory, CommonlyClient.userAuth, hU, hok]
  · by_cases hok : rwm.ok <;>
      simp [CommonlyClient.writeMemory, CommonlyClient.userAuth, hU, hok]
  · by_cases hok : rg.ok <;>
      simp [CommonlyClient.getSummaries, CommonlyClient.userAuth, hU, hok]
  · by_cases hok : rs.ok <;>
      simp [CommonlyClient.search, CommonlyClient.userAuth, hFu, hFr, hok]
  · by_cases hok : rm.ok <;>
      simp [CommonlyClient.readMemory, CommonlyClient.userAuth, hFu, hFr, hok]
  · by_cases hok : rwm.ok <;>
      simp [CommonlyClient.writeMemory, CommonlyClient.userAuth, hFu, hFr, hok]
  · by_cases hok : rg.ok <;>
      simp [CommonlyClient.getSummaries, CommonlyClient.userAuth, hFu, hFr, hok]
  · simp [CommonlyClient.search, CommonlyClient.userAuth, hNu, hNr]
  · simp [CommonlyClient.readMemory, CommonlyClient.userAuth, hNu, hNr]
  · simp [CommonlyClient.writeMemory, CommonlyClient.userAuth, hNu, hNr]
  · simp [CommonlyClient.getSummaries, CommonlyClient.userAuth, hNu, hNr]

/-- Witness for the amended C4 theorem at concrete configs: no tokens,
both tokens, runtime-only. -/
theorem client_auth_classes_witness :
    CommonlyClient.postMessage cfgNoTokens "pod-1" "hello" ⟨true, 200, ⟨"m1", ""⟩⟩
        = ⟨false, none, false, Outcome.configError "Commonly runtime token is required"⟩ ∧
    CommonlyClient.postThreadComment cfgNoTokens "tid-1" "hello" ⟨true, 200, ()⟩
        = ⟨false, none, false, Outcome.configError "Commonly runtime token is required"⟩ ∧
    CommonlyClient.ackEvent cfgNoTokens "evt-1" ⟨true, 200, ()⟩
        = ⟨false, none, false, Outcome.configError "Commonly runtime token is required"⟩ ∧
    CommonlyClient.fetchEvents cfgNoTokens ⟨true, 200, (none : Option (List Unit))⟩
        = ⟨false, none, false, Outcome.configError "Commonly runtime token is required"⟩ ∧
    CommonlyClient.reportEnsembleResponse cfgNoTokens "pod-1" "ens-1" "hello" none
        ⟨true, 200, ()⟩
        = ⟨false, none, false, Outcome.configError "Commonly runtime token is required"⟩ ∧
    CommonlyClient.getContext cfgNoTokens "pod-1" none ⟨true, 200, (none : Option Unit)⟩
        = ⟨false, none, false, Outcome.configError "Commonly runtime token is required"⟩ ∧
    (CommonlyClient.search cfgBothTokens "pod-1" "q" ⟨true, 200, (none : Option (List Unit))⟩).auth
        = some ("Bearer " ++ CommonlyClient.userTokenTrim cfgBothTokens) ∧
    (CommonlyClient.readMemory cfgBothTokens "pod-1" "notes.md" ⟨true, 200, ⟨"x"⟩⟩).auth
        = some ("Bearer " ++ CommonlyClient.userTokenTrim cfgBothTokens) ∧
    (CommonlyClient.writeMemory cfgBothTokens "pod-1" "daily" "hello" ⟨true, 200, ()⟩).auth
        = some ("Bearer " ++ CommonlyClient.userTokenTrim cfgBothTokens) ∧
    (CommonlyClient.getSummaries cfgBothTokens "pod-1" 24
        ⟨true, 200, (none : Option (List Unit))⟩).auth
        = some ("Bearer " ++ CommonlyClient.userTokenTrim cfgBothTokens) ∧
    (CommonlyClient.search cfgRtOnly "pod-1" "q" ⟨true, 200, (none : Option (List Unit))⟩).auth
        = some ("Bearer " ++ CommonlyClient.runtimeTokenTrim cfgRtOnly) ∧
    (CommonlyClient.readMemory cfgRtOnly "pod-1" "notes.md" ⟨true, 200, ⟨"x"⟩⟩).auth
        = some ("Bearer " ++ CommonlyClient.runtimeTokenTrim cfgRtOnly) ∧
    (CommonlyClient.writeMemory cfgRtOnly "pod-1" "daily" "hello" ⟨true, 200, ()⟩).auth
        = some ("Bearer " ++ CommonlyClient.runtimeTokenTrim cfgRtOnly) ∧
    (CommonlyClient.getSummaries cfgRtOnly "pod-1" 24
        ⟨true, 200, (none : Option (List Unit))⟩).auth
        = some ("Bearer " ++ CommonlyClient.runtimeTokenTrim cfgRtOnly) ∧
    CommonlyClient.search cfgNoTokens "pod-1" "q" ⟨true, 200, (none : Option (List Unit))⟩
        = ⟨false, none, false, Outcome.configError "Commonly user token is required"⟩ ∧
    CommonlyClient.readMemory cfgNoTokens "pod-1" "notes.md" ⟨true, 200, ⟨"x"⟩⟩
        = ⟨false, none, false, Outcome.configError "Commonly user token is required"⟩ ∧
    CommonlyClient.writeMemory cfgNoTokens "pod-1" "daily" "hello" ⟨true, 200, ()⟩
        = ⟨false, none, false, Outcome.configError "Commonly user token is required"⟩ ∧
    CommonlyClient.getSummaries cfgNoTokens "pod-1" 24
        ⟨true, 200, (none : Option (List Unit))⟩
        = ⟨false, none, false, Outcome.configError "Commonly user token is required"⟩ :=
  client_auth_classes cfgNoTokens cfgBothTokens cfgRtOnly cfgNoTokens
    (by rfl) (by decide) (by rfl) (by decide) (by rfl) (by rfl)
    "pod-1" "tid-1" "evt-1" "q" "notes.md" "daily" "hello" none none
    ⟨true, 200, ⟨"m1", ""⟩⟩ ⟨true, 200, ()⟩ ⟨true, 200, ()⟩
    ⟨true, 200, (none : Option (List Unit))⟩ ⟨true, 200, ()⟩
    ⟨true, 200, (none : Option Unit)⟩ ⟨true, 200, (none : Option (List Unit))⟩
    ⟨true, 200, ⟨"x"⟩⟩ ⟨true, 200, ()⟩ ⟨true, 200, (none : Option (List Unit))⟩

/-- The user-header getter succeeds whenever a runtime token is present
(fallback), whatever the user token is. -/
lemma userAuth_ok_of_runtime (c : CommonlyClientConfig)
    (hrt : CommonlyClient.runtimeTokenTrim c ≠ "") :
    ∃ a, CommonlyClient.userAuth c = Except.ok a := by
  unfold CommonlyClient.userAuth
  by_cases hu : CommonlyClient.userTokenTrim c = ""
  · exact ⟨"Bearer " ++ CommonlyClient.runtimeTokenTrim c, by simp [hu, hrt]⟩
  · exact ⟨"Bearer " ++ CommonlyClient.userTokenTrim c, by simp [hu]⟩

/-- Claim C5 as amended. On a non-success response, `getContext`,
`getMessages`, `search`, `readMemory` and `getSummaries` do not throw:
they warn and return the empty/null default. `reportEnsembleResponse`
also does not throw — it warns but then returns the parsed response body,
not an empty/null default. `postMessage`, `postThreadComment`, `ackEvent`
and `writeMemory` raise on a non-success response. -/
theorem client_failure_response_behavior (c : CommonlyClientConfig)
    (hrt : CommonlyClient.runtimeTokenTrim c ≠ "") (st : Nat)
    (pod tid eid q path tgt content : String) (mid : Option String) (task : Option String)
    (bC : Option Unit) (bM : Option (List Message)) (bS : Option (List Unit))
    (bR : MemoryFile) (bG : Option (List Unit)) (bE : Option String)
    (bP : Message) (bT : Unit) (bA : Unit) (bW : Unit) :
    CommonlyClient.getContext c pod task ⟨false, st, bC⟩
        = ⟨true, some ("Bearer " ++ CommonlyClient.runtimeTokenTrim c), true,
           Outcome.value none⟩ ∧
    CommonlyClient.getMessages c pod 10 ⟨false, st, bM⟩
        = ⟨true, some ("Bearer " ++ CommonlyClient.runtimeTokenTrim c), true,
           Outcome.value []⟩ ∧
    ((CommonlyClient.search c pod q ⟨false, st, bS⟩).fetched = true ∧
     (CommonlyClient.search c pod q ⟨false, st, bS⟩).warned = true ∧
     (CommonlyClient.search c pod q ⟨false, st, bS⟩).outcome = Outcome.value []) ∧
    ((CommonlyClient.readMemory c pod path ⟨false, st, bR⟩).warned = true ∧
     (CommonlyClient.readMemory c pod path ⟨false, st, bR⟩).outcome = Outcome.value none) ∧
    ((CommonlyClient.getSummaries c pod 24 ⟨false, st, bG⟩).warned = true ∧
     (CommonlyClient.getSummaries c pod 24 ⟨false, st, bG⟩).outcome = Outcome.value []) ∧
    CommonlyClient.reportEnsembleResponse c pod eid content mid ⟨false, st, bE⟩
        = ⟨true, some ("Bearer " ++ CommonlyClient.runtimeTokenTrim c), true,
           Outcome.value bE⟩ ∧
    CommonlyClient.postMessage c pod content ⟨false, st, bP⟩
        = ⟨true, some ("Bearer " ++ CommonlyClient.runtimeTokenTrim c), false,
           Outcome.httpError ("Failed to post message: " ++ toString st)⟩ ∧
    CommonlyClient.postThreadComment c tid content ⟨false, st, bT⟩
        = ⟨true, some ("Bearer " ++ CommonlyClient.runtimeTokenTrim c), false,
           Outcome.httpError ("Failed to post thread comment: " ++ toString st)⟩ ∧
    CommonlyClient.ackEvent c eid ⟨false, st, bA⟩
        = ⟨true, some ("Bearer " ++ CommonlyClient.runtimeTokenTrim c), false,
           Outcome.httpError ("Failed to ack event: " ++ toString st)⟩ ∧
    (CommonlyClient.writeMemory c pod tgt content ⟨false, st, bW⟩).outcome
        = Outcome.httpError ("Failed to write memory: " ++ toString st) := by
  obtain ⟨a, ha⟩ := userAuth_ok_of_runtime c hrt
  refine ⟨?_, ?_, ?_, ?_, ?_, ?_, ?_, ?_, ?_, ?_⟩
  · simp [CommonlyClient.getContext, CommonlyClient.runtimeAuth, hrt]
  · simp [CommonlyClient.getMessages, CommonlyClient.runtimeAuth, hrt]
  · refine ⟨?_, ?_, ?_⟩ <;> simp [CommonlyClient.search, ha]
  · refine ⟨?_, ?_⟩ <;> simp [CommonlyClient.readMemory, ha]
  · refine ⟨?_, ?_⟩ <;> simp [CommonlyClient.getSummaries, ha]
  · simp [CommonlyClient.reportEnsembleResponse, CommonlyClient.runtimeAuth, hrt]
  · simp [CommonlyClient.postMessage, CommonlyClient.runtimeAuth, hrt]
  · simp [CommonlyClient.postThreadComment, CommonlyClient.runtimeAuth, hrt]
  · simp [CommonlyClient.ackEvent, CommonlyClient.runtimeAuth, hrt]
  · simp [CommonlyClient.writeMemory, ha]

/-- Witness for the amended C5 theorem at a runtime-token-only config and
status-500 responses. -/
theorem client_failure_response_behavior_witness :
    CommonlyClient.getContext cfgRtOnly "pod-1" none ⟨false, 500, (none : Option Unit)⟩
        = ⟨true, some ("Bearer " ++ CommonlyClient.runtimeTokenTrim cfgRtOnly), true,
           Outcome.value none⟩ ∧
    CommonlyClient.getMessages cfgRtOnly "pod-1" 10 ⟨false, 500, none⟩
        = ⟨true, some ("Bearer " ++ CommonlyClient.runtimeTokenTrim cfgRtOnly), true,
           Outcome.value []⟩ ∧
    ((CommonlyClient.search cfgRtOnly "pod-1" "q"
        ⟨false, 500, (none : Option (List Unit))⟩).fetched = true ∧
     (CommonlyClient.search cfgRtOnly "pod-1" "q"
        ⟨false, 500, (none : Option (List Unit))⟩).warned = true ∧
     (CommonlyClient.search cfgRtOnly "pod-1" "q"
        ⟨false, 500, (none : Option (List Unit))⟩).outcome = Outcome.value []) ∧
    ((CommonlyClient.readMemory cfgRtOnly "pod-1" "notes.md" ⟨false, 500, ⟨"x"⟩⟩).warned
        = true ∧
     (CommonlyClient.readMemory cfgRtOnly "pod-1" "notes.md" ⟨false, 500, ⟨"x"⟩⟩).outcome
        = Outcome.value none) ∧
    ((CommonlyClient.getSummaries cfgRtOnly "pod-1" 24
        ⟨false, 500, (none : Option (List Unit))⟩).warned = true ∧
     (CommonlyClient.getSummaries cfgRtOnly "pod-1" 24
        ⟨false, 500, (none : Option (List Unit))⟩).outcome = Outcome.value []) ∧
    CommonlyClient.reportEnsembleResponse cfgRtOnly "pod-1" "ens-1" "hello" none
        ⟨false, 500, (some "err" : Option String)⟩
        = ⟨true, some ("Bearer " ++ CommonlyClient.runtimeTokenTrim cfgRtOnly), true,
           Outcome.value (some "err")⟩ ∧
    CommonlyClient.postMessage cfgRtOnly "pod-1" "hello" ⟨false, 500, ⟨"m1", ""⟩⟩
        = ⟨true, some ("Bearer " ++ CommonlyClient.runtimeTokenTrim cfgRtOnly), false,
           Outcome.httpError ("Failed to post message: " ++ toString 500)⟩ ∧
    CommonlyClient.postThreadComment cfgRtOnly "tid-1" "hello" ⟨false, 500, ()⟩
        = ⟨true, some ("Bearer " ++ CommonlyClient.runtimeTokenTrim cfgRtOnly), false,
           Outcome.httpError ("Failed to post thread comment: " ++ toString 500)⟩ ∧
    CommonlyClient.ackEvent cfgRtOnly "evt-1" ⟨false, 500, ()⟩
        = ⟨true, some ("Bearer " ++ CommonlyClient.runtimeTokenTrim cfgRtOnly), false,
           Outcome.httpError ("Failed to ack event: " ++ toString 500)⟩ ∧
    (CommonlyClient.writeMemory cfgRtOnly "pod-1" "daily" "hello" ⟨false, 500, ()⟩).outcome
        = Outcome.httpError ("Failed to write memory: " ++ toString 500) :=
  client_failure_response_behavior cfgRtOnly (by decide) 500
    "pod-1" "tid-1" "evt-1" "q" "notes.md" "daily" "hello" none none
    (none : Option Unit) none (none : Option (List Unit)) ⟨"x"⟩
    (none : Option (List Unit)) (some "err") ⟨"m1", ""⟩ () () ()

/-- Claim C5, counterexample. On a non-success response
`reportEnsembleResponse` does not return an empty/null default: it
returns the parsed response body of the failed call. -/
theorem report_ensemble_failure_returns_body_not_default :
    (CommonlyClient.reportEnsembleResponse cfgRtOnly "pod-1" "ens-1" "hello" none
        ⟨false, 500, (some "error payload" : Option String)⟩).outcome
      = Outcome.value (some "error payload") ∧
    (some "error payload" : Option String) ≠ none := by
  refine ⟨by rfl, by decide⟩
